import Mathlib

/-!
Verification of the agent-loop core of the EAG1Assign4 repository.

The repository contains two near-identical "LLM-as-agent" clients
(`gmail_mcp_client.py` and `mac_keynote_client.py`) plus two tool servers
(`gmail_mcp_server.py`, `mac_keynote_server.py`).  This file shallowly embeds
the response parser, the argument binders, the history rendering, the prompt
builder and the agent loop of both clients, and the `send_email` tool of the
gmail server, over `List Char` as the model of Python strings.
-/

namespace MCPAgent

/-- Characters stripped by Python `str.strip()` with no argument (the ASCII
whitespace characters; the embedding restricts itself to ASCII input). -/
def pySpace (c : Char) : Bool :=
  c = ' ' || c = '\t' || c = '\n' || c = '\r' || c = '\x0b' || c = '\x0c'

/-- Python `str.strip()`: drop leading and trailing whitespace. -/
def pyStrip (l : List Char) : List Char :=
  ((l.dropWhile pySpace).reverse.dropWhile pySpace).reverse

/-- Python `str.startswith(p)` on the character-list model. -/
def startsL : List Char → List Char → Bool
  | [], _ => true
  | _ :: _, [] => false
  | a :: p, b :: l => a == b && startsL p l

/-- Python `str.endswith(p)`: the reversed pattern starts the reversed string. -/
def endsL (p l : List Char) : Bool :=
  startsL p.reverse l.reverse

/-- Everything after the first occurrence of `sep`; the whole of
`s.split(sep, 1)[1]` when `sep` occurs in `s` (the clients only use it on
text known to contain the separator). -/
def afterFirst (sep : Char) : List Char → List Char
  | [] => []
  | c :: rest => if c == sep then rest else afterFirst sep rest

/-- Python `str.split(sep)` for a one-character separator: always returns at
least one (possibly empty) field, with empty fields kept. -/
def splitOnL (sep : Char) : List Char → List (List Char)
  | [] => [[]]
  | c :: rest =>
    if c == sep then [] :: splitOnL sep rest
    else
      match splitOnL sep rest with
      | [] => [[c]]
      | h :: t => (c :: h) :: t

/-- Python slice `s[3:-3]`, used to remove a triple-backtick fence. -/
def sliceOff3 (l : List Char) : List Char :=
  (l.drop 3).take (l.length - 6)

/-- Python slice `s[1:-1]`, used to remove a single-backtick fence. -/
def sliceOff1 (l : List Char) : List Char :=
  (l.drop 1).take (l.length - 2)

/-- Removal of one triple-backtick fence, when the text starts and ends with
one, re-stripping afterwards. -/
def stripFence3 (t : List Char) : List Char :=
  if startsL "```".toList t && endsL "```".toList t then pyStrip (sliceOff3 t)
  else t

/-- Removal of one single-backtick fence, when the text starts and ends with
one, re-stripping afterwards. -/
def stripFence1 (t : List Char) : List Char :=
  if startsL "`".toList t && endsL "`".toList t then pyStrip (sliceOff1 t)
  else t

/-- The markdown-fence cleaning both clients apply to the raw model text:
strip, then the triple-backtick check, then the single-backtick check. -/
def cleanResponse (raw : List Char) : List Char :=
  stripFence1 (stripFence3 (pyStrip raw))

/-- The three-way classification both clients give one cleaned response line. -/
inductive Classified where
  | functionCall (nm : List Char) (args : List (List Char))
  | finalAnswer (msg : List Char)
  | malformed (txt : List Char)
  deriving DecidableEq, Repr

/-- Classification of a cleaned response line, following the
`if`/`elif`/`else` chain of both clients: a `FUNCTION_CALL:` line is split at
the first colon, the payload split on the pipe character with every field
stripped, the first field the tool name and the rest positional arguments; a
`FINAL_ANSWER:` line keeps the stripped text after the first colon; anything
else is malformed with the examined text retained in full. -/
def classify (t : List Char) : Classified :=
  if startsL "FUNCTION_CALL:".toList t then
    match splitOnL '|' (afterFirst ':' t) with
    | [] => .malformed t
    | nm :: rest => .functionCall (pyStrip nm) (rest.map pyStrip)
  else if startsL "FINAL_ANSWER:".toList t then
    .finalAnswer (pyStrip (afterFirst ':' t))
  else .malformed t

/-- Full response handling of one raw completion: fence cleaning followed by
classification. -/
def classifyResponse (raw : List Char) : Classified :=
  classify (cleanResponse raw)

/-- All characters are ASCII decimal digits. -/
def allDigits (l : List Char) : Bool := l.all Char.isDigit

/-- Value of a string of decimal digits. -/
def digitsVal (l : List Char) : Nat :=
  l.foldl (fun a c => a * 10 + (c.toNat - 48)) 0

/-- Models Python `int()` on an already-stripped token: an optional sign
followed by a nonempty run of decimal digits (the binders only apply it to
stripped fields of the model's reply). -/
def pyIntParse (l : List Char) : Option Int :=
  match l with
  | '+' :: r => if r ≠ [] && allDigits r then some (digitsVal r : Int) else none
  | '-' :: r => if r ≠ [] && allDigits r then some (-(digitsVal r : Int)) else none
  | r => if r ≠ [] && allDigits r then some (digitsVal r : Int) else none

/-- Split at the first exponent marker `e`/`E`, keeping what follows. -/
def splitExp : List Char → List Char × Option (List Char)
  | [] => ([], none)
  | c :: r =>
    if c == 'e' || c == 'E' then ([], some r)
    else
      match splitExp r with
      | (m, e) => (c :: m, e)

/-- Split at the first decimal point, keeping what follows. -/
def splitDot : List Char → List Char × Option (List Char)
  | [] => ([], none)
  | c :: r =>
    if c == '.' then ([], some r)
    else
      match splitDot r with
      | (m, e) => (c :: m, e)

/-- Models Python `float()` on a stripped token, as an exact rational, for the
decimal grammar `[sign] (digits [. digits] | . digits) [(e|E) [sign] digits]`.
No tool in either server's catalog declares a `number` parameter, so this
branch of the coercion is never exercised by the concrete catalogs. -/
def pyFloatParse (l : List Char) : Option Rat :=
  let sp : Int × List Char :=
    match l with
    | '+' :: r => (1, r)
    | '-' :: r => (-1, r)
    | r => (1, r)
  let me := splitExp sp.2
  let ipf := splitDot me.1
  let fpl := ipf.2.getD []
  if ipf.1 = [] && fpl = [] then none
  else if !(allDigits ipf.1 && allDigits fpl) then none
  else
    let base : Rat :=
      ((sp.1 * ((digitsVal ipf.1 * 10 ^ fpl.length + digitsVal fpl) : Int) : Int) : Rat)
        / ((10 : Rat) ^ fpl.length)
    match me.2 with
    | none => some base
    | some ex =>
      let esp : Bool × List Char :=
        match ex with
        | '+' :: r => (true, r)
        | '-' :: r => (false, r)
        | r => (true, r)
      if esp.2 = [] || !allDigits esp.2 then none
      else if esp.1 then some (base * (10 : Rat) ^ digitsVal esp.2)
      else some (base / (10 : Rat) ^ digitsVal esp.2)

/-- A coerced Python argument value, as produced by the binders. -/
inductive PyVal where
  | int (n : Int)
  | float (q : Rat)
  | str (s : List Char)
  deriving DecidableEq, Repr

/-- One named, typed parameter of a tool's input schema, in declared order. -/
structure ParamSpec where
  pname : List Char
  ptype : List Char
  deriving DecidableEq, Repr

/-- A tool descriptor as discovered from the tool host: name plus the ordered
parameter schema (`list(tool.inputSchema['properties'].items())`). -/
structure Tool where
  tname : List Char
  params : List ParamSpec
  deriving DecidableEq, Repr

/-- The binding-time failures either client can raise while processing a
`FUNCTION_CALL` request. -/
inductive BindErr where
  | unknownTool (nm : List Char)
  | arity (nm : List Char) (expectedNames : List (List Char)) (got : Nat)
  | coercion (pn : List Char) (value : List Char) (ty : List Char)
  deriving DecidableEq, Repr

/-- Type coercion of one token per the declared parameter type, following the
keynote client: `integer` through Python `int()`, `number` through Python
`float()`, anything else passed through as a string. -/
def coerceParam (ty : List Char) (v : List Char) : Option PyVal :=
  if ty = "integer".toList then (pyIntParse v).map .int
  else if ty = "number".toList then (pyFloatParse v).map .float
  else some (.str v)

/-- The keynote client's coercion loop over the schema parameters in declared
order: the i-th token is coerced to the i-th parameter's type, and the first
failing coercion aborts the whole binding naming that parameter, its raw value
and its declared type. -/
def bindParams : List ParamSpec → List (List Char) → Except BindErr (List (List Char × PyVal))
  | [], _ => .ok []
  | p :: _, [] => .error (.coercion p.pname [] p.ptype)
  | p :: ps, v :: vs =>
    match coerceParam p.ptype v with
    | none => .error (.coercion p.pname v p.ptype)
    | some x =>
      match bindParams ps vs with
      | .error e => .error e
      | .ok rest => .ok ((p.pname, x) :: rest)

/-- The keynote client's full binder: resolve the tool by exact name, require
the token count to equal the declared parameter count, then coerce
positionally. -/
def bindKeynote (tools : List Tool) (nm : List Char) (args : List (List Char)) :
    Except BindErr (List (List Char × PyVal)) :=
  match tools.find? (fun t => t.tname == nm) with
  | none => .error (.unknownTool nm)
  | some tool =>
    if args.length ≠ tool.params.length then
      .error (.arity nm (tool.params.map ParamSpec.pname) args.length)
    else bindParams tool.params args

/-- The gmail client's positional fallback for tools other than `send_email`:
tokens beyond the declared parameter count are dropped, missing tokens leave
parameters unbound, and every value stays a string. -/
def assignPositional : List ParamSpec → List (List Char) → List (List Char × PyVal)
  | [], _ => []
  | _ :: _, [] => []
  | p :: ps, v :: vs => (p.pname, .str v) :: assignPositional ps vs

/-- The gmail client's binder: resolve the tool by exact name; for
`send_email` require exactly three tokens and bind them to `to`, `subject`,
`body`; for any other tool fall back to unchecked positional string
assignment. -/
def bindGmail (tools : List Tool) (nm : List Char) (args : List (List Char)) :
    Except BindErr (List (List Char × PyVal)) :=
  match tools.find? (fun t => t.tname == nm) with
  | none => .error (.unknownTool nm)
  | some tool =>
    if nm = "send_email".toList then
      match args with
      | [a, b, c] =>
        .ok [("to".toList, .str a), ("subject".toList, .str b), ("body".toList, .str c)]
      | _ => .error (.arity nm ["to".toList, "subject".toList, "body".toList] args.length)
    else .ok (assignPositional tool.params args)

/-- The gmail server's catalog: `send_email(to, subject, body)`,
`list_emails(query, max_results)`, `get_email(message_id, body_format)`, with
types from the Python signatures. -/
def gmailCatalog : List Tool :=
  [ ⟨"send_email".toList,
      [⟨"to".toList, "string".toList⟩, ⟨"subject".toList, "string".toList⟩,
       ⟨"body".toList, "string".toList⟩]⟩,
    ⟨"list_emails".toList,
      [⟨"query".toList, "string".toList⟩, ⟨"max_results".toList, "integer".toList⟩]⟩,
    ⟨"get_email".toList,
      [⟨"message_id".toList, "string".toList⟩, ⟨"body_format".toList, "string".toList⟩]⟩ ]

/-- The keynote server's catalog, with types from the Python signatures. -/
def keynoteCatalog : List Tool :=
  [ ⟨"open_keynote".toList, []⟩,
    ⟨"create_blank_keynote_slide".toList, []⟩,
    ⟨"draw_keynote_rectangle".toList,
      [⟨"x1".toList, "integer".toList⟩, ⟨"y1".toList, "integer".toList⟩,
       ⟨"width".toList, "integer".toList⟩, ⟨"height".toList, "integer".toList⟩]⟩,
    ⟨"add_text_in_keynote".toList,
      [⟨"text".toList, "string".toList⟩, ⟨"x".toList, "integer".toList⟩,
       ⟨"y".toList, "integer".toList⟩, ⟨"width".toList, "integer".toList⟩,
       ⟨"height".toList, "integer".toList⟩]⟩,
    ⟨"add".toList, [⟨"a".toList, "integer".toList⟩, ⟨"b".toList, "integer".toList⟩]⟩ ]

/-- Decimal rendering of a natural number, as Python `str()` produces. -/
def natChars (n : Nat) : List Char := Nat.toDigits 10 n

/-- Decimal rendering of an integer, as Python `str()` produces. -/
def intChars (n : Int) : List Char :=
  if n < 0 then '-' :: Nat.toDigits 10 n.natAbs else Nat.toDigits 10 n.toNat

/-- Python `sep.join(items)`. -/
def joinSep (sep : List Char) : List (List Char) → List Char
  | [] => []
  | [x] => x
  | x :: y :: rest => x ++ sep ++ joinSep sep (y :: rest)

/-- Rendering of one bound value inside the keynote client's
`f"{arguments}"` history line.  Integers render exactly as Python does;
strings render quoted (escaping of embedded quotes is not modelled); the
float rendering is an exact rational rendering rather than Python's
shortest-round-trip float repr, which no claim depends on. -/
def pyValRepr : PyVal → List Char
  | .int n => intChars n
  | .float q => intChars q.num ++ "/".toList ++ natChars q.den
  | .str s => '\x27' :: (s ++ ['\x27'])

/-- Python dict rendering of the bound-argument mapping, in insertion
order, used verbatim in the keynote client's history line. -/
def pyDictRepr (args : List (List Char × PyVal)) : List Char :=
  '\x7b' :: (joinSep ", ".toList
      (args.map fun kv => '\x27' :: (kv.1 ++ "\x27: ".toList ++ pyValRepr kv.2))
    ++ ['\x7d'])

/-- One entry of the clients' `iteration_history` list, tagged by the append
site that produced it; `renderEntry` recovers the exact string appended. -/
inductive HEntry where
  | llmFail (it : Nat) (msg : List Char)
  | called (it : Nat) (fn : List Char) (args : List (List Char × PyVal)) (res : List Char)
  | clientError (it : Nat) (txt msg : List Char)
  | finalAns (it : Nat) (msg : List Char)
  | unexpected (it : Nat) (txt : List Char)
  | maxIterReached (it : Nat)
  deriving DecidableEq, Repr

/-- The per-client differences of the shared loop shape: the argument
binder, the rendering of binding errors, the rendering of a successful
tool-call history line, and the sentinel used when a tool result has no
textual content. -/
structure ClientCfg where
  bind : List Tool → List Char → List (List Char) → Except BindErr (List (List Char × PyVal))
  renderErr : BindErr → List Char
  renderCalled : Nat → List Char → List (List Char × PyVal) → List Char → List Char
  noTextSentinel : List Char

/-- The exact history string each entry was appended as. -/
def renderEntry (cfg : ClientCfg) : HEntry → List Char
  | .llmFail it m =>
    "Iteration ".toList ++ natChars it ++ ": Failed to get LLM response: ".toList ++ m
  | .called it fn args res => cfg.renderCalled it fn args res
  | .clientError it txt m =>
    "Iteration ".toList ++ natChars it ++ ": Client Error processing \x27".toList
      ++ txt ++ "\x27: ".toList ++ m
  | .finalAns it m =>
    "Iteration ".toList ++ natChars it ++ ": Received FINAL_ANSWER: ".toList ++ m
  | .unexpected it txt =>
    "Iteration ".toList ++ natChars it ++ ": Unexpected LLM response format: \x27".toList
      ++ txt ++ "\x27".toList
  | .maxIterReached it =>
    "Iteration ".toList ++ natChars it ++ ": Max iterations reached.".toList

/-- The prompt-part list both clients pass to the model each iteration:
three parts, the third being either the first-step question or the rendered
history followed by the next-step question. -/
def promptParts (cfg : ClientCfg) (sysP uq : List Char) (h : List HEntry) :
    List (List Char) :=
  if h = [] then
    [sysP, "\nUser Query: ".toList ++ uq, "\nWhat is the first step?".toList]
  else
    [sysP, "\nUser Query: ".toList ++ uq,
     "\nHistory:\n".toList ++ joinSep "\n".toList (h.map (renderEntry cfg))
       ++ "\n\nWhat is the next step?".toList]

/-- One content item of a tool result; `textPart` is `some` exactly when the
item has a `text` attribute (a textual content item). -/
structure ContentItem where
  textPart : Option (List Char)
  deriving DecidableEq, Repr

/-- Outcome of one model-generation call at the loop's boundary: text, or a
timeout/generation exception with its message. -/
inductive GenOutcome where
  | ok (raw : List Char)
  | genError (msg : List Char)

/-- Outcome of one tool invocation at the transport boundary: a content
list, or a transport-level exception with its message. -/
inductive ToolOutcome where
  | ok (content : List ContentItem)
  | exn (msg : List Char)

/-- The clients' extraction of a textual result: the first content item's
text if the result is nonempty and that item has one, else the client's
fixed sentinel. -/
def extractText (sentinel : List Char) : List ContentItem → List Char
  | [] => sentinel
  | c :: _ =>
    match c.textPart with
    | some t => t
    | none => sentinel

/-- Terminal state of a run, per how the loop ended: `FINAL_ANSWER` break,
error break, or the iteration budget running out. -/
inductive Outcome where
  | succeeded (msg : List Char)
  | failed
  | budgetExhausted
  deriving DecidableEq, Repr

/-- The post-increment check both clients run at the bottom of the loop
body: once the counter reaches the budget, append the max-iterations note. -/
def withMarker (maxIter i : Nat) (h : List HEntry) : List HEntry :=
  if maxIter ≤ i then h ++ [.maxIterReached i] else h

/-- The agent loop. `rem` is the number of loop passes the `while
iteration < max_iterations` condition still allows (`maxIter - i`), `i` the
current value of `iteration`, `h` the accumulated history.  Each pass asks
the model for a completion of the current prompt, classifies it, and either
breaks (generation failure, binding/transport failure, final answer) or
appends one entry and continues. -/
def go (cfg : ClientCfg) (tools : List Tool) (sysP uq : List Char)
    (gen : List (List Char) → GenOutcome)
    (tex : List Char → List (List Char × PyVal) → ToolOutcome)
    (maxIter : Nat) : Nat → Nat → List HEntry → List HEntry × Outcome
  | 0, _, h => (h, .budgetExhausted)
  | rem + 1, i, h =>
    match gen (promptParts cfg sysP uq h) with
    | .genError m => (h ++ [.llmFail (i + 1) m], .failed)
    | .ok raw =>
      match classifyResponse raw with
      | .functionCall nm args =>
        match cfg.bind tools nm args with
        | .error e =>
          (h ++ [.clientError (i + 1) (cleanResponse raw) (cfg.renderErr e)], .failed)
        | .ok bound =>
          match tex nm bound with
          | .exn m => (h ++ [.clientError (i + 1) (cleanResponse raw) m], .failed)
          | .ok content =>
            go cfg tools sysP uq gen tex maxIter rem (i + 1)
              (withMarker maxIter (i + 1)
                (h ++ [.called (i + 1) nm bound (extractText cfg.noTextSentinel content)]))
      | .finalAnswer msg => (h ++ [.finalAns (i + 1) msg], .succeeded msg)
      | .malformed txt =>
        go cfg tools sysP uq gen tex maxIter rem (i + 1)
          (withMarker maxIter (i + 1) (h ++ [.unexpected (i + 1) txt]))

/-- A whole run: the loop entered with `iteration = 0`, an empty history,
and `maxIter` passes allowed. -/
def runAgent (cfg : ClientCfg) (tools : List Tool) (sysP uq : List Char)
    (gen : List (List Char) → GenOutcome)
    (tex : List Char → List (List Char × PyVal) → ToolOutcome)
    (maxIter : Nat) : List HEntry × Outcome :=
  go cfg tools sysP uq gen tex maxIter maxIter 0 []

/-- An entry recording one iteration's model interaction (everything except
the max-iterations note). -/
def isTurn : HEntry → Bool
  | .maxIterReached _ => false
  | _ => true

/-- Number of agent turns recorded in a history. -/
def countTurns (h : List HEntry) : Nat := (h.filter isTurn).length

/-- Python `str.lower()` on the ASCII fragment the clients deal in. -/
def toLowerL (l : List Char) : List Char := l.map Char.toLower

/-- Python `pat in s`: contiguous-substring test. -/
def containsSub : List Char → List Char → Bool
  | p, [] => startsL p []
  | p, c :: rest => startsL p (c :: rest) || containsSub p rest

/-- Rendering of the keynote client's binding failures, with the exact
`ValueError` messages raised at its three `raise` sites. -/
def keynoteRenderErr : BindErr → List Char
  | .unknownTool nm =>
    "Unknown tool \x27".toList ++ nm ++ "\x27 requested by LLM.".toList
  | .arity nm names got =>
    "Parameter count mismatch for tool \x27".toList ++ nm
      ++ "\x27. Expected ".toList ++ natChars names.length ++ " (".toList
      ++ joinSep ", ".toList names ++ "), got ".toList ++ natChars got
      ++ ".".toList
  | .coercion pn v ty =>
    "Could not convert parameter \x27".toList ++ pn ++ "\x27 (value: \x27".toList ++ v
      ++ "\x27) to expected type \x27".toList ++ ty ++ "\x27.".toList

/-- Rendering of the gmail client's binding failures.  The coercion case is
unreachable: `bindGmail` never coerces, so it never yields that error. -/
def gmailRenderErr : BindErr → List Char
  | .unknownTool nm =>
    "Unknown tool \x27".toList ++ nm ++ "\x27 requested by LLM.".toList
  | .arity _ _ got =>
    "Incorrect number of parameters for send_email. Expected 3 (to, subject, body), got ".toList
      ++ natChars got ++ ".".toList
  | .coercion pn v ty =>
    "Could not convert parameter \x27".toList ++ pn ++ "\x27 (value: \x27".toList ++ v
      ++ "\x27) to expected type \x27".toList ++ ty ++ "\x27.".toList

/-- The keynote client's history line for a successful call: the full
argument mapping and the untruncated result. -/
def keynoteRenderCalled (it : Nat) (fn : List Char) (args : List (List Char × PyVal))
    (res : List Char) : List Char :=
  "Iteration ".toList ++ natChars it ++ ": Called ".toList ++ fn
    ++ "(".toList ++ pyDictRepr args ++ "). Result: ".toList ++ res

/-- The gmail client's history line for a successful call: the arguments
elided and the result truncated to its first 200 characters, always followed
by an ellipsis. -/
def gmailRenderCalled (it : Nat) (fn : List Char) (_args : List (List Char × PyVal))
    (res : List Char) : List Char :=
  "Iteration ".toList ++ natChars it ++ ": Called ".toList ++ fn
    ++ "(...). Result: ".toList ++ res.take 200 ++ "...".toList

/-- The keynote client's loop configuration. -/
def keynoteCfg : ClientCfg :=
  ⟨bindKeynote, keynoteRenderErr, keynoteRenderCalled,
   "Tool executed but returned no standard text content.".toList⟩

/-- The gmail client's loop configuration. -/
def gmailCfg : ClientCfg :=
  ⟨bindGmail, gmailRenderErr, gmailRenderCalled,
   "Tool executed, no standard text result.".toList⟩

/-- The tool descriptor of the spec's Scenario B:
`draw_rectangle(x: integer, y: integer, width: integer, height: integer)`. -/
def drawRectangleTool : Tool :=
  ⟨"draw_rectangle".toList,
   [⟨"x".toList, "integer".toList⟩, ⟨"y".toList, "integer".toList⟩,
    ⟨"width".toList, "integer".toList⟩, ⟨"height".toList, "integer".toList⟩]⟩

/-- Oracles under which every loop pass continues: each generation succeeds,
never classifies as a final answer, and every function call binds and
invokes successfully (a malformed reply also continues). -/
def ContinuingOracles (cfg : ClientCfg) (tools : List Tool)
    (gen : List (List Char) → GenOutcome)
    (tex : List Char → List (List Char × PyVal) → ToolOutcome) : Prop :=
  ∀ parts,
    match gen parts with
    | .genError _ => False
    | .ok raw =>
      match classifyResponse raw with
      | .finalAnswer _ => False
      | .malformed _ => True
      | .functionCall nm args =>
        ∃ bound, cfg.bind tools nm args = .ok bound ∧ ∃ c, tex nm bound = .ok c

/-- Outcome of the Gmail API interaction inside the server's `send_email`
tool: the message is sent with an id, the API raises an `HttpError` with
decoded details, or some other exception is raised. -/
inductive MailApiOutcome where
  | sent (msgId : List Char)
  | httpError (details : List Char)
  | otherExn (msg : List Char)

/-- The dictionary a gmail server tool returns: a single `content` key
holding a list of content items. -/
structure ToolResult where
  content : List ContentItem

/-- The gmail server's `send_email` tool over the service state and the API
outcome: an uninitialized service and both exception paths each return an
error message as a single text content item; the success path returns the
confirmation with the message id. -/
def send_email (serviceInit : Bool) (api : MailApiOutcome)
    (toAddr subject body : List Char) : ToolResult :=
  if !serviceInit then ⟨[⟨some "Error: Gmail service not initialized.".toList⟩]⟩
  else
    match api with
    | .sent mid =>
      ⟨[⟨some ("Email sent successfully to ".toList ++ toAddr ++ " with subject \x27".toList
          ++ subject ++ "\x27. Message ID: ".toList ++ mid)⟩]⟩
    | .httpError d =>
      ⟨[⟨some ("An HTTP error occurred sending email: ".toList ++ d)⟩]⟩
    | .otherExn m =>
      ⟨[⟨some ("An unexpected error occurred sending email: ".toList ++ m)⟩]⟩

/-- A pattern starts a string extended from it. -/
theorem startsL_self_append (p r : List Char) : startsL p (p ++ r) = true := by
  induction p with
  | nil => rfl
  | cons a p ih => simpa [startsL] using ih

/-- `startsL` decides string-prefix decomposition. -/
theorem startsL_eq_true_iff (p l : List Char) :
    startsL p l = true ↔ ∃ r, l = p ++ r := by
  induction p generalizing l with
  | nil => simp [startsL]
  | cons a p ih =>
    cases l with
    | nil => simp [startsL]
    | cons b l' =>
      simp only [startsL, Bool.and_eq_true, beq_iff_eq, ih, List.cons_append]
      constructor
      · rintro ⟨rfl, r, rfl⟩
        exact ⟨r, rfl⟩
      · rintro ⟨r, hr⟩
        injection hr with h1 h2
        exact ⟨h1.symm, r, h2⟩

/-- Stripping leaves a string alone when its first and last characters are
not whitespace. -/
theorem pyStrip_sandwich (a b : Char) (l : List Char)
    (ha : pySpace a = false) (hb : pySpace b = false) :
    pyStrip (a :: (l ++ [b])) = a :: (l ++ [b]) := by
  simp [pyStrip, List.dropWhile_cons, ha, hb, List.reverse_append]

/-- A triple-fenced string is already stripped. -/
theorem pyStrip_fence3 (t : List Char) :
    pyStrip ("```".toList ++ t ++ "```".toList) = "```".toList ++ t ++ "```".toList := by
  have h := pyStrip_sandwich '`' '`' ('`' :: '`' :: (t ++ ['`', '`'])) rfl rfl
  have hsh : '`' :: (('`' :: '`' :: (t ++ ['`', '`'])) ++ ['`'])
      = "```".toList ++ t ++ "```".toList := by
    simp
  rwa [hsh] at h

/-- A triple-fenced string passes the leading-fence test. -/
theorem startsL_fence3 (t : List Char) :
    startsL "```".toList ("```".toList ++ t ++ "```".toList) = true := by
  have := startsL_self_append "```".toList (t ++ "```".toList)
  simpa using this

/-- A triple-fenced string passes the trailing-fence test. -/
theorem endsL_fence3 (t : List Char) :
    endsL "```".toList ("```".toList ++ t ++ "```".toList) = true := by
  unfold endsL
  have := startsL_self_append ("```".toList).reverse (t.reverse ++ ("```".toList).reverse)
  simp only [List.reverse_append] at *
  simpa using this

/-- The `[3:-3]` slice recovers the fenced content. -/
theorem sliceOff3_fence (t : List Char) :
    sliceOff3 ("```".toList ++ t ++ "```".toList) = t := by
  unfold sliceOff3
  have hd : ("```".toList ++ t ++ "```".toList).drop 3 = t ++ "```".toList := by
    simp [List.append_assoc]
  have hl : ("```".toList ++ t ++ "```".toList).length - 6 = t.length := by
    simp
  rw [hd, hl]
  simp

/-- The triple-fence step strips exactly the fence and re-strips. -/
theorem stripFence3_wrap (t : List Char) :
    stripFence3 ("```".toList ++ t ++ "```".toList) = pyStrip t := by
  unfold stripFence3
  rw [startsL_fence3, endsL_fence3, sliceOff3_fence]
  rfl

/-- A single-fenced string is already stripped. -/
theorem pyStrip_fence1 (t : List Char) :
    pyStrip ("`".toList ++ t ++ "`".toList) = "`".toList ++ t ++ "`".toList := by
  have h := pyStrip_sandwich '`' '`' t rfl rfl
  have hsh : '`' :: (t ++ ['`']) = "`".toList ++ t ++ "`".toList := by simp
  rwa [hsh] at h

/-- A single-fenced string passes the leading-backtick test. -/
theorem startsL_fence1 (t : List Char) :
    startsL "`".toList ("`".toList ++ t ++ "`".toList) = true := by
  have := startsL_self_append "`".toList (t ++ "`".toList)
  simpa using this

/-- A single-fenced string passes the trailing-backtick test. -/
theorem endsL_fence1 (t : List Char) :
    endsL "`".toList ("`".toList ++ t ++ "`".toList) = true := by
  unfold endsL
  have := startsL_self_append ("`".toList).reverse (t.reverse ++ ("`".toList).reverse)
  simp only [List.reverse_append] at *
  simpa using this

/-- The `[1:-1]` slice recovers the fenced content. -/
theorem sliceOff1_fence (t : List Char) :
    sliceOff1 ("`".toList ++ t ++ "`".toList) = t := by
  unfold sliceOff1
  have hd : ("`".toList ++ t ++ "`".toList).drop 1 = t ++ "`".toList := by
    simp [List.append_assoc]
  have hl : ("`".toList ++ t ++ "`".toList).length - 2 = t.length := by
    simp
  rw [hd, hl]
  simp

/-- The single-fence step strips exactly the fence and re-strips. -/
theorem stripFence1_wrap (t : List Char) :
    stripFence1 ("`".toList ++ t ++ "`".toList) = pyStrip t := by
  unfold stripFence1
  rw [startsL_fence1, endsL_fence1, sliceOff1_fence]
  rfl

/-- A triple-backtick lead implies a single-backtick lead. -/
theorem startsL_of_startsL3 (u : List Char)
    (h : startsL "```".toList u = true) : startsL "`".toList u = true := by
  rw [startsL_eq_true_iff] at h ⊢
  obtain ⟨r, rfl⟩ := h
  exact ⟨"``".toList ++ r, by simp⟩

/-- A triple-backtick tail implies a single-backtick tail. -/
theorem endsL_of_endsL3 (u : List Char)
    (h : endsL "```".toList u = true) : endsL "`".toList u = true := by
  unfold endsL at h ⊢
  rw [startsL_eq_true_iff] at h ⊢
  obtain ⟨r, hr⟩ := h
  exact ⟨"``".toList ++ r, by rw [hr]; simp⟩

/-- A string that is not single-fenced is not triple-fenced either. -/
theorem fence3_false_of_fence1_false (u : List Char)
    (h : (startsL "`".toList u && endsL "`".toList u) = false) :
    (startsL "```".toList u && endsL "```".toList u) = false := by
  by_contra hc
  rw [Bool.not_eq_false, Bool.and_eq_true] at hc
  rw [Bool.and_eq_false_iff] at h
  rcases h with h | h
  · rw [startsL_of_startsL3 u hc.1] at h
    simp at h
  · rw [endsL_of_endsL3 u hc.2] at h
    simp at h

/-- Cleaning a triple-fence-wrapped completion whose stripped content is not
itself triple-fenced yields the cleaning of the content. -/
theorem cleanResponse_fence3 (t : List Char)
    (hu : (startsL "```".toList (pyStrip t) && endsL "```".toList (pyStrip t)) = false) :
    cleanResponse ("```".toList ++ t ++ "```".toList) = cleanResponse t := by
  unfold cleanResponse
  rw [pyStrip_fence3, stripFence3_wrap]
  have hid : stripFence3 (pyStrip t) = pyStrip t := by
    unfold stripFence3
    rw [hu]
    simp
  rw [hid]

/-- Cleaning a single-fence-wrapped completion that does not look
triple-fenced, whose stripped content is not itself single-fenced, yields
the cleaning of the content. -/
theorem cleanResponse_fence1 (t : List Char)
    (h2 : (startsL "```".toList ("`".toList ++ t ++ "`".toList)
            && endsL "```".toList ("`".toList ++ t ++ "`".toList)) = false)
    (h1 : (startsL "`".toList (pyStrip t) && endsL "`".toList (pyStrip t)) = false) :
    cleanResponse ("`".toList ++ t ++ "`".toList) = cleanResponse t := by
  unfold cleanResponse
  rw [pyStrip_fence1]
  have hs3 : stripFence3 ("`".toList ++ t ++ "`".toList) = "`".toList ++ t ++ "`".toList := by
    unfold stripFence3
    rw [h2]
    simp
  rw [hs3, stripFence1_wrap]
  have hs3u : stripFence3 (pyStrip t) = pyStrip t := by
    unfold stripFence3
    rw [fence3_false_of_fence1_false _ h1]
    simp
  rw [hs3u]
  unfold stripFence1
  rw [h1]
  simp

/-- Everything after the first colon of a `FUNCTION_CALL:` line is its tail
past the tag. -/
theorem afterFirst_fcTag (r : List Char) :
    afterFirst ':' ("FUNCTION_CALL:".toList ++ r) = r := rfl

/-- Dropping the tag length of a `FUNCTION_CALL:` line is its payload. -/
theorem drop14_fcTag (r : List Char) :
    ("FUNCTION_CALL:".toList ++ r).drop 14 = r := rfl

/-- Everything after the first colon of a `FINAL_ANSWER:` line is its tail
past the tag. -/
theorem afterFirst_faTag (r : List Char) :
    afterFirst ':' ("FINAL_ANSWER:".toList ++ r) = r := rfl

/-- Dropping the tag length of a `FINAL_ANSWER:` line is its payload. -/
theorem drop13_faTag (r : List Char) :
    ("FINAL_ANSWER:".toList ++ r).drop 13 = r := rfl

/-- Python `split` never yields an empty field list. -/
theorem splitOnL_ne_nil (sep : Char) (l : List Char) : splitOnL sep l ≠ [] := by
  induction l with
  | nil => simp [splitOnL]
  | cons c rest ih =>
    unfold splitOnL
    split
    · simp
    · cases hs : splitOnL sep rest with
      | nil => simp
      | cons h t => simp

/-- C6 (confirmed): a raw completion wrapped in exactly one layer of matching
triple- or single-backtick fences (its stripped content not itself fenced the
same way, and a single-fenced completion not also reading as triple-fenced)
receives the same classification as the unwrapped text. -/
theorem fence_strip_same_classification :
    (∀ t : List Char,
        (startsL "```".toList (pyStrip t) && endsL "```".toList (pyStrip t)) = false →
        classifyResponse ("```".toList ++ t ++ "```".toList) = classifyResponse t)
  ∧ (∀ t : List Char,
        (startsL "```".toList ("`".toList ++ t ++ "`".toList)
          && endsL "```".toList ("`".toList ++ t ++ "`".toList)) = false →
        (startsL "`".toList (pyStrip t) && endsL "`".toList (pyStrip t)) = false →
        classifyResponse ("`".toList ++ t ++ "`".toList) = classifyResponse t) := by
  constructor
  · intro t hu
    unfold classifyResponse
    rw [cleanResponse_fence3 t hu]
  · intro t h2 h1
    unfold classifyResponse
    rw [cleanResponse_fence1 t h2 h1]

/-- Witness for C6: a concrete fenced final answer classifies exactly as its
unwrapped text does. -/
theorem fence_strip_same_classification_witness :
    classifyResponse "```FINAL_ANSWER: done```".toList
        = classifyResponse "FINAL_ANSWER: done".toList
      ∧ classifyResponse "FINAL_ANSWER: done".toList
        = .finalAnswer "done".toList := by
  constructor
  · have h := fence_strip_same_classification.1 "FINAL_ANSWER: done".toList (by decide)
    have hsh : "```".toList ++ "FINAL_ANSWER: done".toList ++ "```".toList
        = "```FINAL_ANSWER: done```".toList := by decide
    rwa [hsh] at h
  · decide

/-- C3 (confirmed): classification of a raw completion is total and
three-way: a cleaned text beginning with `FUNCTION_CALL:` yields a
`FunctionCall` whose payload is everything after the first colon, split on
the pipe with every field trimmed, the first field the tool name and the
rest the positional arguments in order; a cleaned text beginning with
`FINAL_ANSWER:` yields a `FinalAnswer`; anything else yields `Malformed`
retaining the examined text in full. -/
theorem response_classification_total (raw : List Char) :
    (startsL "FUNCTION_CALL:".toList (cleanResponse raw) = true →
        afterFirst ':' (cleanResponse raw) = (cleanResponse raw).drop 14 ∧
        classifyResponse raw =
          .functionCall (pyStrip ((splitOnL '|' (afterFirst ':' (cleanResponse raw))).headD []))
            (((splitOnL '|' (afterFirst ':' (cleanResponse raw))).tail).map pyStrip))
  ∧ (startsL "FINAL_ANSWER:".toList (cleanResponse raw) = true →
        classifyResponse raw = .finalAnswer (pyStrip ((cleanResponse raw).drop 13)))
  ∧ (startsL "FUNCTION_CALL:".toList (cleanResponse raw) = false →
      startsL "FINAL_ANSWER:".toList (cleanResponse raw) = false →
        classifyResponse raw = .malformed (cleanResponse raw)) := by
  refine ⟨?_, ?_, ?_⟩
  · intro hfc
    have hdrop : afterFirst ':' (cleanResponse raw) = (cleanResponse raw).drop 14 := by
      obtain ⟨r, hr⟩ := (startsL_eq_true_iff _ _).1 hfc
      rw [hr, afterFirst_fcTag, drop14_fcTag]
    refine ⟨hdrop, ?_⟩
    unfold classifyResponse classify
    rw [hfc]
    simp only [if_true]
    cases hs : splitOnL '|' (afterFirst ':' (cleanResponse raw)) with
    | nil => exact absurd hs (splitOnL_ne_nil _ _)
    | cons nm rest => simp [hs]
  · intro hfa
    have hfc : startsL "FUNCTION_CALL:".toList (cleanResponse raw) = false := by
      obtain ⟨r, hr⟩ := (startsL_eq_true_iff _ _).1 hfa
      rw [hr]
      rfl
    unfold classifyResponse classify
    rw [hfc, hfa]
    simp only [Bool.false_eq_true, if_false, if_true]
    obtain ⟨r, hr⟩ := (startsL_eq_true_iff _ _).1 hfa
    rw [hr, afterFirst_faTag, drop13_faTag]
  · intro h1 h2
    unfold classifyResponse classify
    rw [h1, h2]
    simp

/-- Witness for C3: a concrete function-call line classifies to the expected
tool name and argument fields. -/
theorem response_classification_total_witness :
    classifyResponse "FUNCTION_CALL: add|1|2".toList
      = .functionCall "add".toList ["1".toList, "2".toList] := by
  have h := (response_classification_total "FUNCTION_CALL: add|1|2".toList).1 (by decide)
  rw [h.2]
  decide

/-- The coercion loop never produces an arity error. -/
theorem bindParams_no_arity (ps : List ParamSpec) (vs : List (List Char)) :
    ∀ nm names got, bindParams ps vs ≠ .error (.arity nm names got) := by
  induction ps generalizing vs with
  | nil =>
    intro nm names got
    simp [bindParams]
  | cons p ps ih =>
    intro nm names got
    cases vs with
    | nil => simp [bindParams]
    | cons v vs =>
      simp only [bindParams]
      cases hc : coerceParam p.ptype v with
      | none => simp
      | some x =>
        cases hb : bindParams ps vs with
        | error e =>
          intro hcontra
          injection hcontra with he
          exact ih vs nm names got (he ▸ hb)
        | ok rest => simp

/-- When every token coerces, the coercion loop binds the i-th token to the
i-th declared parameter (the zip of schema and tokens), in order. -/
theorem bindParams_ok_of_all_coerce (ps : List ParamSpec) (vs : List (List Char))
    (hlen : ps.length = vs.length)
    (hall : ∀ pv ∈ List.zip ps vs, (coerceParam pv.1.ptype pv.2).isSome = true) :
    bindParams ps vs
      = .ok ((List.zip ps vs).map
          fun pv => (pv.1.pname, (coerceParam pv.1.ptype pv.2).getD (.str pv.2))) := by
  induction ps generalizing vs with
  | nil =>
    cases vs with
    | nil => rfl
    | cons v vs => simp at hlen
  | cons p ps ih =>
    cases vs with
    | nil => simp at hlen
    | cons v vs =>
      have hp := hall (p, v) (by simp)
      obtain ⟨x, hx⟩ := Option.isSome_iff_exists.1 hp
      simp only [bindParams, hx]
      rw [ih vs (by simpa using hlen) (fun pv hm => hall pv (by simp [hm]))]
      simp [hx]

/-- Any failure of the coercion loop on arity-matched inputs is a coercion
error naming an actual parameter, the raw token at its position, and its
declared type, at a position whose coercion indeed fails. -/
theorem bindParams_error_coercion (ps : List ParamSpec) (vs : List (List Char))
    (hlen : ps.length = vs.length) (e : BindErr)
    (he : bindParams ps vs = .error e) :
    ∃ i, ∃ h1 : i < ps.length, ∃ h2 : i < vs.length,
      e = .coercion (ps.get ⟨i, h1⟩).pname (vs.get ⟨i, h2⟩) (ps.get ⟨i, h1⟩).ptype
        ∧ coerceParam (ps.get ⟨i, h1⟩).ptype (vs.get ⟨i, h2⟩) = none := by
  induction ps generalizing vs e with
  | nil =>
    cases vs with
    | nil => simp [bindParams] at he
    | cons v vs => simp at hlen
  | cons p ps ih =>
    cases vs with
    | nil => simp at hlen
    | cons v vs =>
      simp only [bindParams] at he
      cases hc : coerceParam p.ptype v with
      | none =>
        rw [hc] at he
        injection he with hh
        refine ⟨0, by simp, by simp, ?_, ?_⟩
        · simpa using hh.symm
        · simpa using hc
      | some x =>
        rw [hc] at he
        cases hb : bindParams ps vs with
        | error e' =>
          rw [hb] at he
          injection he with hh
          obtain ⟨i, hi1, hi2, hee, hcc⟩ := ih vs (by simpa using hlen) e' hb
          refine ⟨i + 1, by simpa using hi1, by simpa using hi2, ?_, ?_⟩
          · simpa [hh] using hee
          · simpa using hcc
        | ok rest =>
          rw [hb] at he
          simp at he

/-- The gmail fallback binds the i-th token to the i-th declared parameter as
a raw string, never failing. -/
theorem assignPositional_eq_zip (ps : List ParamSpec) (vs : List (List Char)) :
    assignPositional ps vs
      = (List.zip ps vs).map fun pv => (pv.1.pname, PyVal.str pv.2) := by
  induction ps generalizing vs with
  | nil => cases vs <;> rfl
  | cons p ps ih =>
    cases vs with
    | nil => rfl
    | cons v vs => simp [assignPositional, ih]

/-- A keynote binding with a token-count mismatch fails with exactly the
arity error. -/
theorem bindKeynote_arity_error (tools : List Tool) (nm : List Char)
    (args : List (List Char)) (tool : Tool)
    (hf : tools.find? (fun t => t.tname == nm) = some tool)
    (hne : args.length ≠ tool.params.length) :
    bindKeynote tools nm args
      = .error (.arity nm (tool.params.map ParamSpec.pname) args.length) := by
  unfold bindKeynote
  rw [hf]
  simp [hne]

/-- A keynote binding with a matching token count never fails with an arity
error. -/
theorem bindKeynote_no_arity_error (tools : List Tool) (nm : List Char)
    (args : List (List Char)) (tool : Tool)
    (hf : tools.find? (fun t => t.tname == nm) = some tool)
    (heq : args.length = tool.params.length) :
    ∀ nm2 names got, bindKeynote tools nm args ≠ .error (.arity nm2 names got) := by
  unfold bindKeynote
  rw [hf]
  simp only [heq]
  intro nm2 names got
  rw [if_neg (not_not_intro rfl)]
  exact bindParams_no_arity tool.params args nm2 names got

/-- The gmail binder's `send_email` arity failure for any token count other
than three. -/
theorem bindGmail_send_arity (tools : List Tool) (args : List (List Char)) (tool : Tool)
    (hf : tools.find? (fun t => t.tname == "send_email".toList) = some tool)
    (hne : args.length ≠ 3) :
    bindGmail tools "send_email".toList args
      = .error (.arity "send_email".toList
          ["to".toList, "subject".toList, "body".toList] args.length) := by
  unfold bindGmail
  simp only [hf, if_true]
  match args, hne with
  | [], _ => rfl
  | [a], _ => rfl
  | [a, b], _ => rfl
  | [a, b, c], h => exact absurd rfl h
  | a :: b :: c :: d :: rest, _ => rfl

/-- The gmail binder's hard-coded `send_email` assignment for exactly three
tokens. -/
theorem bindGmail_send_ok (tools : List Tool) (tool : Tool) (a b c : List Char)
    (hf : tools.find? (fun t => t.tname == "send_email".toList) = some tool) :
    bindGmail tools "send_email".toList [a, b, c]
      = .ok [("to".toList, .str a), ("subject".toList, .str b), ("body".toList, .str c)] := by
  unfold bindGmail
  simp only [hf, if_true]

/-- The gmail binder never fails on a resolved tool other than `send_email`:
it falls back to unchecked positional assignment. -/
theorem bindGmail_other_ok (tools : List Tool) (nm : List Char)
    (args : List (List Char)) (tool : Tool)
    (hf : tools.find? (fun t => t.tname == nm) = some tool)
    (hnm : nm ≠ "send_email".toList) :
    bindGmail tools nm args = .ok (assignPositional tool.params args) := by
  unfold bindGmail
  simp only [hf]
  rw [if_neg hnm]

/-- A binding failure inside the loop appends a client-error entry with the
rendered failure and stops the run at once. -/
theorem go_bind_error (cfg : ClientCfg) (tools : List Tool) (sysP uq : List Char)
    (gen : List (List Char) → GenOutcome)
    (tex : List Char → List (List Char × PyVal) → ToolOutcome)
    (maxIter rem i : Nat) (h : List HEntry) (raw nm : List Char)
    (args : List (List Char)) (e : BindErr)
    (hgen : gen (promptParts cfg sysP uq h) = .ok raw)
    (hcl : classifyResponse raw = .functionCall nm args)
    (hb : cfg.bind tools nm args = .error e) :
    go cfg tools sysP uq gen tex maxIter (rem + 1) i h
      = (h ++ [.clientError (i + 1) (cleanResponse raw) (cfg.renderErr e)], .failed) := by
  simp only [go, hgen, hcl, hb]

/-- C1 (amended): for the keynote client, a resolved binding fails with an
arity error exactly when the token count differs from the declared parameter
count; for the gmail client the exact-arity rule holds only for
`send_email` (expected three), while any other resolved tool binds without
arity checking; and any binding failure terminates the run at once with an
explanatory failure entry in history, with no retry. -/
theorem arity_binding_and_failure_terminates :
    (∀ tools nm args tool,
        tools.find? (fun t => t.tname == nm) = some tool →
        (args.length ≠ tool.params.length →
            bindKeynote tools nm args
              = .error (.arity nm (tool.params.map ParamSpec.pname) args.length))
          ∧ (args.length = tool.params.length →
              ∀ nm2 names got, bindKeynote tools nm args ≠ .error (.arity nm2 names got)))
  ∧ (∀ tools args tool,
        tools.find? (fun t => t.tname == "send_email".toList) = some tool →
        args.length ≠ 3 →
        bindGmail tools "send_email".toList args
          = .error (.arity "send_email".toList
              ["to".toList, "subject".toList, "body".toList] args.length))
  ∧ (∀ tools nm args tool,
        tools.find? (fun t => t.tname == nm) = some tool →
        nm ≠ "send_email".toList →
        bindGmail tools nm args = .ok (assignPositional tool.params args))
  ∧ (∀ cfg tools sysP uq gen tex maxIter rem i h raw nm args e,
        gen (promptParts cfg sysP uq h) = .ok raw →
        classifyResponse raw = .functionCall nm args →
        cfg.bind tools nm args = .error e →
        go cfg tools sysP uq gen tex maxIter (rem + 1) i h
          = (h ++ [.clientError (i + 1) (cleanResponse raw) (cfg.renderErr e)], .failed)) := by
  refine ⟨?_, ?_, ?_, ?_⟩
  · intro tools nm args tool hf
    exact ⟨bindKeynote_arity_error tools nm args tool hf,
           fun heq => bindKeynote_no_arity_error tools nm args tool hf heq⟩
  · intro tools args tool hf
    exact bindGmail_send_arity tools args tool hf
  · intro tools nm args tool hf hnm
    exact bindGmail_other_ok tools nm args tool hf hnm
  · intro cfg tools sysP uq gen tex maxIter rem i h raw nm args e hgen hcl hb
    exact go_bind_error cfg tools sysP uq gen tex maxIter rem i h raw nm args e hgen hcl hb

/-- Witness for C1: the keynote binder rejects a one-token call of the
two-parameter `add` tool with exactly the arity error. -/
theorem arity_binding_and_failure_terminates_witness :
    bindKeynote keynoteCatalog "add".toList ["1".toList]
      = .error (.arity "add".toList ["a".toList, "b".toList] 1) := by
  have h := (arity_binding_and_failure_terminates.1 keynoteCatalog "add".toList ["1".toList]
      ⟨"add".toList, [⟨"a".toList, "integer".toList⟩, ⟨"b".toList, "integer".toList⟩]⟩
      (by decide)).1 (by decide)
  simpa using h

/-- Counterexample to C1 as stated: in the gmail client, `list_emails`
resolves to a two-parameter descriptor, yet binding three tokens succeeds
(the extra token is silently dropped) instead of failing with an arity
error. -/
theorem gmail_arity_unchecked_counterexample :
    gmailCatalog.find? (fun t => t.tname == "list_emails".toList)
        = some ⟨"list_emails".toList,
            [⟨"query".toList, "string".toList⟩, ⟨"max_results".toList, "integer".toList⟩]⟩
      ∧ ["a".toList, "b".toList, "c".toList].length ≠ 2
      ∧ bindGmail gmailCatalog "list_emails".toList ["a".toList, "b".toList, "c".toList]
          = .ok [("query".toList, .str "a".toList), ("max_results".toList, .str "b".toList)] := by
  refine ⟨rfl, by decide, rfl⟩

/-- C2 (amended): in the keynote client, binding is positional — the i-th
token binds to the i-th declared parameter — with per-type coercion
(`integer` through Python int parsing, `number` through float parsing,
anything else passed through as a string); a failing coercion fails the
whole binding with an error naming that parameter, its raw value and its
declared type, and Scenario B fails on `width` exactly as stated.  In the
gmail client binding is positional but values are never coerced: every
bound value is the raw string. -/
theorem positional_binding_with_coercion :
    (∀ (ps : List ParamSpec) (vs : List (List Char)),
        ps.length = vs.length →
        (∀ pv ∈ List.zip ps vs, (coerceParam pv.1.ptype pv.2).isSome = true) →
        bindParams ps vs
          = .ok ((List.zip ps vs).map
              fun pv => (pv.1.pname, (coerceParam pv.1.ptype pv.2).getD (.str pv.2))))
  ∧ (∀ (ps : List ParamSpec) (vs : List (List Char)) (e : BindErr),
        ps.length = vs.length →
        bindParams ps vs = .error e →
        ∃ i, ∃ h1 : i < ps.length, ∃ h2 : i < vs.length,
          e = .coercion (ps.get ⟨i, h1⟩).pname (vs.get ⟨i, h2⟩) (ps.get ⟨i, h1⟩).ptype
            ∧ coerceParam (ps.get ⟨i, h1⟩).ptype (vs.get ⟨i, h2⟩) = none)
  ∧ ((∀ v, coerceParam "integer".toList v = (pyIntParse v).map PyVal.int)
      ∧ (∀ v, coerceParam "number".toList v = (pyFloatParse v).map PyVal.float)
      ∧ (∀ ty v, ty ≠ "integer".toList → ty ≠ "number".toList →
          coerceParam ty v = some (.str v)))
  ∧ bindKeynote [drawRectangleTool] "draw_rectangle".toList
        ["100".toList, "100".toList, "not_a_number".toList, "200".toList]
      = .error (.coercion "width".toList "not_a_number".toList "integer".toList)
  ∧ (∀ (ps : List ParamSpec) (vs : List (List Char)),
        assignPositional ps vs
          = (List.zip ps vs).map fun pv => (pv.1.pname, PyVal.str pv.2)) := by
  refine ⟨?_, ?_, ⟨?_, ?_, ?_⟩, ?_, ?_⟩
  · exact bindParams_ok_of_all_coerce
  · intro ps vs e hlen he
    exact bindParams_error_coercion ps vs hlen e he
  · intro v
    rfl
  · intro v
    simp [coerceParam]
  · intro ty v h1 h2
    unfold coerceParam
    rw [if_neg h1, if_neg h2]
  · rfl
  · exact assignPositional_eq_zip

/-- Witness for C2: the rectangle descriptor's four integer parameters bind
four numeric tokens positionally to their coerced integers. -/
theorem positional_binding_with_coercion_witness :
    bindParams drawRectangleTool.params
        ["10".toList, "20".toList, "30".toList, "40".toList]
      = .ok [("x".toList, .int 10), ("y".toList, .int 20),
             ("width".toList, .int 30), ("height".toList, .int 40)] := by
  have h := positional_binding_with_coercion.1 drawRectangleTool.params
      ["10".toList, "20".toList, "30".toList, "40".toList] (by decide) (by decide)
  rw [h]
  rfl

/-- Counterexample to C2 as stated: in the gmail client, the integer-typed
`max_results` parameter of `list_emails` accepts the token `abc` — which
does not parse as an integer — bound as a raw string, instead of the whole
binding failing with a coercion error. -/
theorem gmail_missing_coercion_counterexample :
    gmailCatalog.find? (fun t => t.tname == "list_emails".toList)
        = some ⟨"list_emails".toList,
            [⟨"query".toList, "string".toList⟩, ⟨"max_results".toList, "integer".toList⟩]⟩
      ∧ pyIntParse "abc".toList = none
      ∧ bindGmail gmailCatalog "list_emails".toList ["q".toList, "abc".toList]
          = .ok [("query".toList, .str "q".toList), ("max_results".toList, .str "abc".toList)] := by
  refine ⟨rfl, by decide, rfl⟩

/-- Appending histories adds their turn counts. -/
theorem countTurns_append (h h' : List HEntry) :
    countTurns (h ++ h') = countTurns h + countTurns h' := by
  simp [countTurns, List.filter_append]

/-- The max-iterations note is not an agent turn. -/
theorem countTurns_withMarker (m i : Nat) (h : List HEntry) :
    countTurns (withMarker m i h) = countTurns h := by
  unfold withMarker
  split
  · rw [countTurns_append]
    simp [countTurns, isTurn, List.filter]
  · rfl

/-- Under continuing oracles every pass appends exactly one turn, and the
loop runs its remaining budget down to budget exhaustion. -/
theorem go_continuing (cfg : ClientCfg) (tools : List Tool) (sysP uq : List Char)
    (gen : List (List Char) → GenOutcome)
    (tex : List Char → List (List Char × PyVal) → ToolOutcome) (maxIter : Nat)
    (hc : ContinuingOracles cfg tools gen tex) :
    ∀ rem i h,
      (go cfg tools sysP uq gen tex maxIter rem i h).2 = .budgetExhausted
        ∧ countTurns (go cfg tools sysP uq gen tex maxIter rem i h).1
            = countTurns h + rem := by
  intro rem
  induction rem with
  | zero =>
    intro i h
    exact ⟨rfl, rfl⟩
  | succ rem ih =>
    intro i h
    have hp := hc (promptParts cfg sysP uq h)
    cases hgen : gen (promptParts cfg sysP uq h) with
    | genError m =>
      simp only [hgen] at hp
    | ok raw =>
      simp only [hgen] at hp
      cases hcl : classifyResponse raw with
      | finalAnswer m =>
        simp only [hcl] at hp
      | malformed txt =>
        have hstep : go cfg tools sysP uq gen tex maxIter (rem + 1) i h
            = go cfg tools sysP uq gen tex maxIter rem (i + 1)
                (withMarker maxIter (i + 1) (h ++ [.unexpected (i + 1) txt])) := by
          simp only [go, hgen, hcl]
        rw [hstep]
        obtain ⟨h1, h2⟩ := ih (i + 1) (withMarker maxIter (i + 1) (h ++ [.unexpected (i + 1) txt]))
        refine ⟨h1, ?_⟩
        rw [h2, countTurns_withMarker, countTurns_append]
        have hone : countTurns [HEntry.unexpected (i + 1) txt] = 1 := rfl
        rw [hone]
        omega
      | functionCall nm args =>
        simp only [hcl] at hp
        obtain ⟨bound, hb, c, ht⟩ := hp
        have hstep : go cfg tools sysP uq gen tex maxIter (rem + 1) i h
            = go cfg tools sysP uq gen tex maxIter rem (i + 1)
                (withMarker maxIter (i + 1)
                  (h ++ [.called (i + 1) nm bound (extractText cfg.noTextSentinel c)])) := by
          simp only [go, hgen, hcl, hb, ht]
        rw [hstep]
        obtain ⟨h1, h2⟩ := ih (i + 1)
          (withMarker maxIter (i + 1)
            (h ++ [.called (i + 1) nm bound (extractText cfg.noTextSentinel c)]))
        refine ⟨h1, ?_⟩
        rw [h2, countTurns_withMarker, countTurns_append]
        have hone : countTurns
            [HEntry.called (i + 1) nm bound (extractText cfg.noTextSentinel c)] = 1 := rfl
        rw [hone]
        omega

/-- C4 (confirmed): when the model never produces a final answer and every
generation and tool call succeeds, the loop adds exactly one turn per pass
and stops by exhausting the iteration budget, recording exactly
`max_iterations` agent turns — in particular exactly five for the clients'
`max_iterations = 5`. -/
theorem budget_exhaustion_exact_turns (cfg : ClientCfg) (tools : List Tool)
    (sysP uq : List Char) (gen : List (List Char) → GenOutcome)
    (tex : List Char → List (List Char × PyVal) → ToolOutcome)
    (hc : ContinuingOracles cfg tools gen tex) (maxIter : Nat) :
    (runAgent cfg tools sysP uq gen tex maxIter).2 = .budgetExhausted
      ∧ countTurns (runAgent cfg tools sysP uq gen tex maxIter).1 = maxIter := by
  obtain ⟨h1, h2⟩ := go_continuing cfg tools sysP uq gen tex maxIter hc maxIter 0 []
  exact ⟨h1, by simpa [countTurns] using h2⟩

/-- Witness for C4: a model that always answers plain `hello` drives either
loop to budget exhaustion after exactly five turns. -/
theorem budget_exhaustion_exact_turns_witness :
    (runAgent gmailCfg gmailCatalog "S".toList "Q".toList
        (fun _ => .ok "hello".toList) (fun _ _ => .ok []) 5).2 = .budgetExhausted
      ∧ countTurns (runAgent gmailCfg gmailCatalog "S".toList "Q".toList
          (fun _ => .ok "hello".toList) (fun _ _ => .ok []) 5).1 = 5 :=
  budget_exhaustion_exact_turns gmailCfg gmailCatalog "S".toList "Q".toList
    (fun _ => .ok "hello".toList) (fun _ _ => .ok [])
    (fun _ => trivial) 5

/-- C5 (confirmed): a tool invocation that completes at the transport level
and reports an application error as text (the result contains the substring
`error` after lowercasing) does not abort the loop: the result is appended
as an ordinary `called` entry and the loop proceeds to its next iteration
exactly as for any other successful invocation. -/
theorem application_error_not_terminal (cfg : ClientCfg) (tools : List Tool)
    (sysP uq : List Char) (gen : List (List Char) → GenOutcome)
    (tex : List Char → List (List Char × PyVal) → ToolOutcome)
    (maxIter rem i : Nat) (h : List HEntry) (raw nm : List Char)
    (args : List (List Char)) (bound : List (List Char × PyVal))
    (content : List ContentItem)
    (hgen : gen (promptParts cfg sysP uq h) = .ok raw)
    (hcl : classifyResponse raw = .functionCall nm args)
    (hb : cfg.bind tools nm args = .ok bound)
    (ht : tex nm bound = .ok content)
    (_herr : containsSub "error".toList
        (toLowerL (extractText cfg.noTextSentinel content)) = true) :
    go cfg tools sysP uq gen tex maxIter (rem + 1) i h
      = go cfg tools sysP uq gen tex maxIter rem (i + 1)
          (withMarker maxIter (i + 1)
            (h ++ [.called (i + 1) nm bound (extractText cfg.noTextSentinel content)])) := by
  simp only [go, hgen, hcl, hb, ht]

/-- Witness for C5: a keynote tool reporting `Error: No Keynote document is
open.` is recorded as an ordinary turn and the loop goes on. -/
theorem application_error_not_terminal_witness :
    containsSub "error".toList
        (toLowerL (extractText keynoteCfg.noTextSentinel
          [⟨some "Error: No Keynote document is open.".toList⟩])) = true
      ∧ go keynoteCfg keynoteCatalog "S".toList "Q".toList
            (fun _ => .ok "FUNCTION_CALL: open_keynote".toList)
            (fun _ _ => .ok [⟨some "Error: No Keynote document is open.".toList⟩])
            5 2 0 []
          = go keynoteCfg keynoteCatalog "S".toList "Q".toList
              (fun _ => .ok "FUNCTION_CALL: open_keynote".toList)
              (fun _ _ => .ok [⟨some "Error: No Keynote document is open.".toList⟩])
              5 1 1
              (withMarker 5 1
                [.called 1 "open_keynote".toList []
                  "Error: No Keynote document is open.".toList]) := by
  refine ⟨by decide, ?_⟩
  have h := application_error_not_terminal keynoteCfg keynoteCatalog "S".toList "Q".toList
      (fun _ => .ok "FUNCTION_CALL: open_keynote".toList)
      (fun _ _ => .ok [⟨some "Error: No Keynote document is open.".toList⟩])
      5 1 0 [] "FUNCTION_CALL: open_keynote".toList "open_keynote".toList
      [] [] [⟨some "Error: No Keynote document is open.".toList⟩]
      rfl (by decide) rfl rfl (by decide)
  simpa using h

/-- A join of rendered lines embeds each member line contiguously. -/
theorem joinSep_embeds (sep : List Char) (l1 : List (List Char)) (x : List Char)
    (l2 : List (List Char)) :
    ∃ u v, joinSep sep (l1 ++ x :: l2) = u ++ (x ++ v) := by
  induction l1 with
  | nil =>
    cases l2 with
    | nil => exact ⟨[], [], by simp [joinSep]⟩
    | cons y l2 => exact ⟨[], sep ++ joinSep sep (y :: l2), by simp [joinSep]⟩
  | cons a l1 ih =>
    obtain ⟨u, v, hu⟩ := ih
    cases hl : l1 ++ x :: l2 with
    | nil => exact absurd hl (by simp)
    | cons y rest =>
      refine ⟨a ++ sep ++ u, v, ?_⟩
      have hstep : joinSep sep (a :: (l1 ++ x :: l2))
          = a ++ sep ++ joinSep sep (l1 ++ x :: l2) := by
        rw [hl]
        rfl
      rw [List.cons_append, hstep, hu]
      simp [List.append_assoc]

/-- C7 (amended): the keynote client renders a turn's history line with the
outcome text verbatim as its suffix, and that outcome text appears
contiguously and verbatim inside the next prompt's history section; the
gmail client instead renders only the first 200 characters of the outcome
text followed by an ellipsis. -/
theorem history_roundtrip :
    (∀ it fn args res,
        renderEntry keynoteCfg (.called it fn args res)
          = ("Iteration ".toList ++ natChars it ++ ": Called ".toList ++ fn
              ++ "(".toList ++ pyDictRepr args ++ "). Result: ".toList) ++ res)
  ∧ (∀ sysP uq h1 h2 it fn args res, ∃ u v,
        promptParts keynoteCfg sysP uq (h1 ++ HEntry.called it fn args res :: h2)
          = [sysP, "\nUser Query: ".toList ++ uq, u ++ (res ++ v)])
  ∧ (∀ it fn args res,
        renderEntry gmailCfg (.called it fn args res)
          = ("Iteration ".toList ++ natChars it ++ ": Called ".toList ++ fn
              ++ "(...). Result: ".toList) ++ (res.take 200 ++ "...".toList)) := by
  refine ⟨?_, ?_, ?_⟩
  · intro it fn args res
    simp [renderEntry, keynoteRenderCalled, keynoteCfg, List.append_assoc]
  · intro sysP uq h1 h2 it fn args res
    have hne : h1 ++ HEntry.called it fn args res :: h2 ≠ [] := by simp
    obtain ⟨u, v, hu⟩ := joinSep_embeds "\n".toList (h1.map (renderEntry keynoteCfg))
      (renderEntry keynoteCfg (.called it fn args res)) (h2.map (renderEntry keynoteCfg))
    refine ⟨"\nHistory:\n".toList ++ u
        ++ ("Iteration ".toList ++ natChars it ++ ": Called ".toList ++ fn
            ++ "(".toList ++ pyDictRepr args ++ "). Result: ".toList),
      v ++ "\n\nWhat is the next step?".toList, ?_⟩
    unfold promptParts
    rw [if_neg hne]
    have hmap : (h1 ++ HEntry.called it fn args res :: h2).map (renderEntry keynoteCfg)
        = h1.map (renderEntry keynoteCfg)
            ++ renderEntry keynoteCfg (.called it fn args res)
              :: h2.map (renderEntry keynoteCfg) := by
      simp
    rw [hmap, hu]
    have hr : renderEntry keynoteCfg (.called it fn args res)
        = ("Iteration ".toList ++ natChars it ++ ": Called ".toList ++ fn
            ++ "(".toList ++ pyDictRepr args ++ "). Result: ".toList) ++ res := by
      simp [renderEntry, keynoteRenderCalled, keynoteCfg, List.append_assoc]
    rw [hr]
    simp [List.append_assoc]
  · intro it fn args res
    simp [renderEntry, gmailRenderCalled, gmailCfg, List.append_assoc]

/-- Witness for C7: a concrete keynote turn's result `3` reappears verbatim
in the next prompt's history section. -/
theorem history_roundtrip_witness :
    ∃ u v,
      promptParts keynoteCfg "S".toList "Q".toList
          [HEntry.called 1 "add".toList [("a".toList, .int 1), ("b".toList, .int 2)]
            "3".toList]
        = ["S".toList, "\nUser Query: Q".toList, u ++ ("3".toList ++ v)] := by
  have h := history_roundtrip.2.1 "S".toList "Q".toList []
      [] 1 "add".toList [("a".toList, .int 1), ("b".toList, .int 2)] "3".toList
  simpa using h

set_option maxRecDepth 8192 in
/-- Counterexample to C7 as stated: a 201-character tool result in the gmail
client is not reproduced verbatim anywhere in its rendered history line —
the line keeps only its first 200 characters plus an ellipsis, a truncation
cap documented nowhere in the spec. -/
theorem gmail_truncation_counterexample :
    ¬ ∃ u v : List Char,
        renderEntry gmailCfg
            (.called 1 "send_email".toList [] (List.replicate 201 'Z'))
          = u ++ (List.replicate 201 'Z' ++ v) := by
  rintro ⟨u, v, h⟩
  have hcount : (renderEntry gmailCfg
      (.called 1 "send_email".toList [] (List.replicate 201 'Z'))).count 'Z' = 200 := by
    decide
  rw [h, List.count_append, List.count_append, List.count_replicate_self] at hcount
  omega

/-- C8 (amended): when a tool result's first content item is textual, its
text becomes the recorded outcome text; with no content, or a first item
without text, the client's fixed sentinel is recorded — for the gmail client
`Tool executed, no standard text result.`, for the keynote client
`Tool executed but returned no standard text content.`. -/
theorem result_text_extraction :
    (∀ t rest, extractText gmailCfg.noTextSentinel (⟨some t⟩ :: rest) = t)
  ∧ (∀ t rest, extractText keynoteCfg.noTextSentinel (⟨some t⟩ :: rest) = t)
  ∧ extractText gmailCfg.noTextSentinel []
      = "Tool executed, no standard text result.".toList
  ∧ (∀ rest, extractText gmailCfg.noTextSentinel (⟨none⟩ :: rest)
      = "Tool executed, no standard text result.".toList)
  ∧ extractText keynoteCfg.noTextSentinel []
      = "Tool executed but returned no standard text content.".toList
  ∧ (∀ rest, extractText keynoteCfg.noTextSentinel (⟨none⟩ :: rest)
      = "Tool executed but returned no standard text content.".toList) :=
  ⟨fun _ _ => rfl, fun _ _ => rfl, rfl, fun _ => rfl, rfl, fun _ => rfl⟩

/-- Counterexample to C8 as stated: the keynote client's sentinel for a
result with no textual content is a different fixed string than the one the
claim names. -/
theorem keynote_sentinel_counterexample :
    extractText keynoteCfg.noTextSentinel []
        = "Tool executed but returned no standard text content.".toList
      ∧ extractText keynoteCfg.noTextSentinel []
          ≠ "Tool executed, no standard text result.".toList :=
  ⟨rfl, by decide⟩

/-- C9 (amended): the first-turn prompt is the three-part list
`[system_prompt, "\nUser Query: " + request, "\nWhat is the first step?"]`,
and every later prompt is `[system_prompt, "\nUser Query: " + request,
"\nHistory:\n" + joined history lines + "\n\nWhat is the next step?"]`. -/
theorem prompt_shape (cfg : ClientCfg) (sysP uq : List Char) :
    promptParts cfg sysP uq []
        = [sysP, "\nUser Query: ".toList ++ uq, "\nWhat is the first step?".toList]
      ∧ ∀ h, h ≠ [] →
          promptParts cfg sysP uq h
            = [sysP, "\nUser Query: ".toList ++ uq,
               "\nHistory:\n".toList ++ joinSep "\n".toList (h.map (renderEntry cfg))
                 ++ "\n\nWhat is the next step?".toList] := by
  constructor
  · rfl
  · intro h hne
    unfold promptParts
    rw [if_neg hne]

/-- Witness for C9: the prompt built over a one-entry history has exactly
the three parts with the history block spelled out. -/
theorem prompt_shape_witness :
    promptParts gmailCfg "S".toList "Q".toList [HEntry.maxIterReached 5]
      = ["S".toList, "\nUser Query: Q".toList,
         "\nHistory:\nIteration 5: Max iterations reached.\n\nWhat is the next step?".toList] := by
  have h := (prompt_shape gmailCfg "S".toList "Q".toList).2 [HEntry.maxIterReached 5] (by simp)
  rw [h]
  decide

/-- Counterexample to C9 as stated: the first-turn prompt is not the
claimed two-part list — it has three parts and a leading newline before
`User Query:`. -/
theorem first_prompt_counterexample :
    promptParts gmailCfg "S".toList "Q".toList []
        = ["S".toList, "\nUser Query: Q".toList, "\nWhat is the first step?".toList]
      ∧ promptParts gmailCfg "S".toList "Q".toList []
          ≠ ["S".toList, "User Query: Q".toList] :=
  ⟨rfl, by decide⟩

/-- C10 (confirmed): the gmail server's `send_email` returns, on every
service state and API outcome, a mapping whose content is exactly one text
item; an uninitialized service, an HTTP error and any other exception each
yield their error message as that single item. -/
theorem send_email_total :
    (∀ init api toAddr subject body, ∃ t,
        (send_email init api toAddr subject body).content = [⟨some t⟩])
  ∧ (∀ api toAddr subject body,
        send_email false api toAddr subject body
          = ⟨[⟨some "Error: Gmail service not initialized.".toList⟩]⟩)
  ∧ (∀ mid toAddr subject body,
        send_email true (.sent mid) toAddr subject body
          = ⟨[⟨some ("Email sent successfully to ".toList ++ toAddr
              ++ " with subject \x27".toList ++ subject
              ++ "\x27. Message ID: ".toList ++ mid)⟩]⟩)
  ∧ (∀ d toAddr subject body,
        send_email true (.httpError d) toAddr subject body
          = ⟨[⟨some ("An HTTP error occurred sending email: ".toList ++ d)⟩]⟩)
  ∧ (∀ m toAddr subject body,
        send_email true (.otherExn m) toAddr subject body
          = ⟨[⟨some ("An unexpected error occurred sending email: ".toList ++ m)⟩]⟩) := by
  refine ⟨?_, fun _ _ _ _ => rfl, fun _ _ _ _ => rfl,
    fun _ _ _ _ => rfl, fun _ _ _ _ => rfl⟩
  intro init api toAddr s b
  cases init <;> cases api <;> exact ⟨_, rfl⟩

end MCPAgent
